import Mathlib

/-!
A shallow embedding of the pokedex repository's core: the validated value
objects, the repository contract, and the three storage backends
(in-memory list, SQLite-backed relational store, Airtable-backed remote
store), together with the domain use-case orchestrators.

Modelling conventions:
- Rust methods that mutate state through `&self` / a `Mutex` become explicit
  state-passing functions returning `result × newState`. The sequential
  model always acquires the lock successfully; lock poisoning is an
  environment failure outside a sequential embedding.
- `u16` integers are modelled as `Nat` (values below 2 ^ 16 where relevant).
- Fallible operations return `Except`/`Option` mirroring Rust's `Result`.
- Failures of the storage medium itself (SQL statement failure, network or
  deserialization failure) are injected through explicit environment
  records, so that the error-normalisation paths of the source are part of
  the model rather than abstracted away.
-/

namespace Pokedex

/-! ### Value objects

Modelled from the spec: `src/domain/entities.rs` (the definitions of
`PokemonNumber`, `PokemonName`, `PokemonTypes`, `Pokemon` and their
`TryFrom`/`From` conversions) is not among the provided source files; these
definitions follow the spec's §3 and §4.1 word for word: `Number` is valid
iff it lies in a closed range excluding the sentinel 0 (upper bound
implementation-defined; fixed here at 65535 as the spec suggests), `Name`
is valid iff the string is non-empty (no trimming), `TypeSet` is valid iff
the list is non-empty and every tag belongs to a fixed closed vocabulary,
and each accessor returns the wrapped primitive unchanged (lossless). -/

/-- Modelled from the spec: the configured upper bound of the valid
`Number` range ("keep it open for an implementer to fix at e.g. 1–65535
minus 0"). -/
def pokemonNumberMax : Nat := 65535

structure PokemonNumber where
  val : Nat
deriving DecidableEq, Repr

/-- Modelled from the spec: `Number::from(u16)` fails with `Invalid` if the
value is the reserved sentinel (0) or otherwise out of the configured valid
range. -/
def PokemonNumber.tryFrom (n : Nat) : Option PokemonNumber :=
  if 1 ≤ n && n ≤ pokemonNumberMax then some ⟨n⟩ else none

structure PokemonName where
  val : String
deriving DecidableEq, Repr

/-- Modelled from the spec: `Name::from(string)` fails with `Invalid` if
the string is empty (no transformation). -/
def PokemonName.tryFrom (s : String) : Option PokemonName :=
  if s.isEmpty then none else some ⟨s⟩

/-- Modelled from the spec: the fixed closed vocabulary of category tags, a
configuration constant (the tags exercised by the spec's scenarios). -/
def typeVocabulary : List String := ["Electric", "Fire"]

structure PokemonTypes where
  val : List String
deriving DecidableEq, Repr

/-- Modelled from the spec: `TypeSet::from(list)` fails with `Invalid` if
the list is empty or contains any tag outside the fixed vocabulary; the
stored list is kept as given (ordered, lossless round-trip). -/
def PokemonTypes.tryFrom (ts : List String) : Option PokemonTypes :=
  if ts.isEmpty then none
  else if ts.all (fun t => typeVocabulary.contains t) then some ⟨ts⟩
  else none

structure Pokemon where
  number : PokemonNumber
  name : PokemonName
  types : PokemonTypes
deriving DecidableEq, Repr

def Pokemon.new (number : PokemonNumber) (name : PokemonName)
    (types : PokemonTypes) : Pokemon :=
  ⟨number, name, types⟩

/-! ### Repository error vocabulary (src/repositories/pokemon.rs:6-23) -/

inductive InsertError
  | Conflict
  | Unknown
deriving DecidableEq, Repr

inductive FetchAllError
  | Unknown
deriving DecidableEq, Repr

inductive FetchOneError
  | NotFound
  | Unknown
deriving DecidableEq, Repr

inductive DeleteError
  | NotFound
  | Unknown
deriving DecidableEq, Repr

/-! ### In-memory backend (src/repositories/pokemon.rs:40-137) -/

structure InMemoryRepository where
  error : Bool
  pokemons : List Pokemon
deriving DecidableEq, Repr

def InMemoryRepository.new : InMemoryRepository := ⟨false, []⟩

def InMemoryRepository.with_error (r : InMemoryRepository) :
    InMemoryRepository :=
  { r with error := true }

/-- src/repositories/pokemon.rs:64-86: scan for a `Number` collision under
the lock, `Conflict` on a hit, else push the new record. -/
def InMemoryRepository.insert (r : InMemoryRepository)
    (number : PokemonNumber) (name : PokemonName) (types : PokemonTypes) :
    Except InsertError Pokemon × InMemoryRepository :=
  if r.error then (.error .Unknown, r)
  else if r.pokemons.any (fun pokemon => pokemon.number == number) then
    (.error .Conflict, r)
  else
    let pokemon := Pokemon.new number name types
    (.ok pokemon, { r with pokemons := r.pokemons ++ [pokemon] })

/-- The comparator of `pokemons.sort_by(|a, b| a.number.cmp(&b.number))`. -/
def pokemonLe (a b : Pokemon) : Prop :=
  a.number.val ≤ b.number.val

instance : DecidableRel pokemonLe := fun a b => Nat.decLe a.number.val b.number.val

/-- Models Rust's stable `Vec::sort_by` with comparator
`a.number.cmp(&b.number)` (src/repositories/pokemon.rs:99). A stable sort
is extensionally determined by the comparator, so insertion sort is the
same function. -/
def sortByNumber (l : List Pokemon) : List Pokemon :=
  List.insertionSort pokemonLe l

instance : IsTotal Pokemon pokemonLe :=
  ⟨fun a b => Nat.le_total a.number.val b.number.val⟩

instance : IsTrans Pokemon pokemonLe := ⟨fun _ _ _ => Nat.le_trans⟩

/-- src/repositories/pokemon.rs:88-101: copy the guarded list, sort it by
number, return the copy. -/
def InMemoryRepository.fetch_all (r : InMemoryRepository) :
    Except FetchAllError (List Pokemon) × InMemoryRepository :=
  if r.error then (.error .Unknown, r)
  else (.ok (sortByNumber r.pokemons), r)

/-- src/repositories/pokemon.rs:103-117: linear scan under the lock. -/
def InMemoryRepository.fetch_one (r : InMemoryRepository)
    (number : PokemonNumber) :
    Except FetchOneError Pokemon × InMemoryRepository :=
  if r.error then (.error .Unknown, r)
  else
    match r.pokemons.find? (fun p => p.number == number) with
    | some pokemon => (.ok pokemon, r)
    | none => (.error .NotFound, r)

/-- src/repositories/pokemon.rs:119-136: find the index of the matching
record, `NotFound` if absent, else remove it. -/
def InMemoryRepository.delete (r : InMemoryRepository)
    (number : PokemonNumber) :
    Except DeleteError Unit × InMemoryRepository :=
  if r.error then (.error .Unknown, r)
  else
    match r.pokemons.findIdx? (fun p => p.number == number) with
    | some index => (.ok (), { r with pokemons := r.pokemons.eraseIdx index })
    | none => (.error .NotFound, r)

/-! ### Relational (SQLite) backend (src/repositories/pokemon.rs:299-506)

The database is modelled as the contents of the two tables. The schema
(spec §6) declares `number INTEGER PRIMARY KEY`, which in SQLite makes
`number` the rowid: the table is stored as a B-tree keyed by it, and a full
scan (`select number, name from pokemons`) returns rows in ascending
`number` order. The model therefore keeps `pokemons` in primary-key order
(`SqliteDb.WF`) and the row insert places a new row at its key position,
exactly as the B-tree does. `types` rows are appended in insertion order. -/

structure SqliteDb where
  pokemons : List (Nat × String)
  types : List (Nat × String)
deriving DecidableEq, Repr

def SqliteDb.empty : SqliteDb := ⟨[], []⟩

/-- Representation invariant: the `pokemons` B-tree holds strictly
increasing primary keys. -/
def SqliteDb.WF (db : SqliteDb) : Prop :=
  db.pokemons.Pairwise (fun a b => a.1 < b.1)

/-- The exact message SQLite produces for a duplicate primary key on this
schema, the one src/repositories/pokemon.rs:400 string-matches. -/
def uniqueViolationMessage : String := "UNIQUE constraint failed: pokemons.number"

/-- B-tree insertion: the new row goes to its primary-key position. Only
reached when the key is not already present. -/
def insertPokemonRow (n : Nat) (name : String) :
    List (Nat × String) → List (Nat × String)
  | [] => [(n, name)]
  | row :: rest =>
    if n ≤ row.1 then (n, name) :: row :: rest
    else row :: insertPokemonRow n name rest

/-- Injected failures of the storage medium during `SqliteRepository::insert`:
lock acquisition, transaction start, an independent driver failure of the
records-row statement (with the `Option String` message a `SqliteFailure`
carries), failure of the i-th per-tag statement, and the commit. -/
structure SqliteEnv where
  lockOk : Bool
  txOk : Bool
  recordStmtError : Option (Option String)
  tagStmtFails : Nat → Bool
  commitOk : Bool

/-- The environment in which the storage medium never fails on its own. -/
def SqliteEnv.ok : SqliteEnv := ⟨true, true, none, fun _ => false, true⟩

/-- Executes `insert into pokemons (number, name) values (?, ?)`
(src/repositories/pokemon.rs:394-397). If the environment injects a driver
failure the statement fails with that message; otherwise a duplicate
primary key fails with exactly `uniqueViolationMessage`, and a fresh key is
stored at its B-tree position. -/
def execInsertPokemonRow (env : SqliteEnv) (db : SqliteDb) (n : Nat)
    (name : String) : Except (Option String) SqliteDb :=
  match env.recordStmtError with
  | some message => .error message
  | none =>
    if db.pokemons.any (fun row => row.1 == n) then
      .error (some uniqueViolationMessage)
    else .ok { db with pokemons := insertPokemonRow n name db.pokemons }

/-- Executes the per-tag loop of `insert into types (pokemon_number, name)`
statements (src/repositories/pokemon.rs:409-416), threading the in-transaction
state; the environment decides whether the i-th statement fails. -/
def execInsertTypeRows (env : SqliteEnv) (n : Nat) :
    SqliteDb → List String → Nat → Except Unit SqliteDb
  | db, [], _ => .ok db
  | db, t :: rest, i =>
    if env.tagStmtFails i then .error ()
    else execInsertTypeRows env n { db with types := db.types ++ [(n, t)] } rest (i + 1)

/-- src/repositories/pokemon.rs:378-422. Every error path returns before
`transaction.commit()`; rusqlite rolls the transaction back when it is
dropped uncommitted, so on every error the function yields the original
database state. The records-row failure is matched against the literal
uniqueness message to decide Conflict vs Unknown. -/
def SqliteRepository.insert (env : SqliteEnv) (db : SqliteDb)
    (number : PokemonNumber) (name : PokemonName) (types : PokemonTypes) :
    Except InsertError Pokemon × SqliteDb :=
  if !env.lockOk then (.error .Unknown, db)
  else if !env.txOk then (.error .Unknown, db)
  else
    match execInsertPokemonRow env db number.val name.val with
    | .error (some message) =>
      if message == "UNIQUE constraint failed: pokemons.number" then
        (.error .Conflict, db)
      else (.error .Unknown, db)
    | .error none => (.error .Unknown, db)
    | .ok db1 =>
      match execInsertTypeRows env number.val db1 types.val 0 with
      | .error _ => (.error .Unknown, db)
      | .ok db2 =>
        if env.commitOk then (.ok (Pokemon.new number name types), db2)
        else (.error .Unknown, db)

/-- src/repositories/pokemon.rs:319-351: `select number, name from pokemons`,
optionally filtered by number; a full scan returns rows in rowid =
primary-key order, i.e. the stored order. -/
def SqliteRepository.fetch_pokemon_rows (db : SqliteDb) (number : Option Nat) :
    List (Nat × String) :=
  match number with
  | some n => db.pokemons.filter (fun row => row.1 == n)
  | none => db.pokemons

/-- src/repositories/pokemon.rs:353-374: `select name from types where
pokemon_number = ?`. -/
def SqliteRepository.fetch_type_rows (db : SqliteDb) (number : Nat) :
    List String :=
  (db.types.filter (fun row => row.1 == number)).map (fun row => row.2)

/-- The per-record assembly loop of `fetch_all`
(src/repositories/pokemon.rs:437-453): fetch the record's type rows,
re-validate everything through the value-object constructors, fail the
whole read on the first invalid row. -/
def SqliteRepository.assemble (db : SqliteDb) :
    List (Nat × String) → Option (List Pokemon)
  | [] => some []
  | row :: rest =>
    match PokemonNumber.tryFrom row.1, PokemonName.tryFrom row.2,
        PokemonTypes.tryFrom (SqliteRepository.fetch_type_rows db row.1),
        SqliteRepository.assemble db rest with
    | some number, some name, some types, some pokemons =>
      some (Pokemon.new number name types :: pokemons)
    | _, _, _, _ => none

/-- src/repositories/pokemon.rs:424-456. -/
def SqliteRepository.fetch_all (db : SqliteDb) :
    Except FetchAllError (List Pokemon) :=
  match SqliteRepository.assemble db (SqliteRepository.fetch_pokemon_rows db none) with
  | some pokemons => .ok pokemons
  | none => .error .Unknown

/-- src/repositories/pokemon.rs:458-489: filtered row query, NotFound on an
empty result, else assemble the first row. -/
def SqliteRepository.fetch_one (db : SqliteDb) (number : PokemonNumber) :
    Except FetchOneError Pokemon :=
  match SqliteRepository.fetch_pokemon_rows db (some number.val) with
  | [] => .error .NotFound
  | row :: _ =>
    match PokemonNumber.tryFrom row.1, PokemonName.tryFrom row.2,
        PokemonTypes.tryFrom (SqliteRepository.fetch_type_rows db row.1) with
    | some n, some nm, some ts => .ok (Pokemon.new n nm ts)
    | _, _, _ => .error .Unknown

/-- src/repositories/pokemon.rs:491-505: one `delete from pokemons where
number = ?`; zero affected rows decide NotFound; the schema's foreign-key
cascade (spec §4.4, §6) removes the dependent `types` rows. -/
def SqliteRepository.delete (db : SqliteDb) (number : PokemonNumber) :
    Except DeleteError Unit × SqliteDb :=
  let affected := (db.pokemons.filter (fun row => row.1 == number.val)).length
  if affected == 0 then (.error .NotFound, db)
  else
    (.ok (),
      { pokemons := db.pokemons.filter (fun row => row.1 != number.val),
        types := db.types.filter (fun row => row.1 != number.val) })

/-! ### Remote (Airtable) backend (src/repositories/pokemon.rs:139-297)

The remote table is a list of rows (id, number, name, types) in the
service's storage order. The service assigns the id of a created row
(`env.freshId`); `readFails` models a network or deserialization failure of
a GET, `writeFails` of the POST / DELETE call. -/

structure AirtableRecord where
  id : String
  number : Nat
  name : String
  types : List String
deriving DecidableEq, Repr

structure AirtableState where
  records : List AirtableRecord
deriving DecidableEq, Repr

structure AirtableEnv where
  readFails : Bool
  writeFails : Bool
  freshId : String
deriving DecidableEq, Repr

def AirtableEnv.ok : AirtableEnv := ⟨false, false, "rec0"⟩

/-- The `sort%5B0%5D%5Bfield%5D=number` ordering the unfiltered query asks
the service for (src/repositories/pokemon.rs:159). -/
def airtableRecordLe (a b : AirtableRecord) : Prop :=
  a.number ≤ b.number

instance : DecidableRel airtableRecordLe := fun a b => Nat.decLe a.number b.number

instance : IsTotal AirtableRecord airtableRecordLe :=
  ⟨fun a b => Nat.le_total a.number b.number⟩

instance : IsTrans AirtableRecord airtableRecordLe := ⟨fun _ _ _ => Nat.le_trans⟩

/-- src/repositories/pokemon.rs:156-174: a filtered GET
(`filterByFormula=number%3D{n}`) returns the rows whose number field equals
n; the unfiltered GET returns all rows sorted by number. A failed call or
failed JSON deserialization is an error. -/
def AirtableRepository.fetch_pokemon_rows (env : AirtableEnv)
    (st : AirtableState) (number : Option Nat) :
    Except Unit (List AirtableRecord) :=
  if env.readFails then .error ()
  else
    match number with
    | some n => .ok (st.records.filter (fun record => record.number == n))
    | none => .ok (List.insertionSort airtableRecordLe st.records)

/-- src/repositories/pokemon.rs:178-211: filtered read first; any row with
that number means Conflict and the create POST is never issued; only on an
empty result is the POST sent. -/
def AirtableRepository.insert (env : AirtableEnv) (st : AirtableState)
    (number : PokemonNumber) (name : PokemonName) (types : PokemonTypes) :
    Except InsertError Pokemon × AirtableState :=
  match AirtableRepository.fetch_pokemon_rows env st (some number.val) with
  | .error _ => (.error .Unknown, st)
  | .ok rows =>
    if !rows.isEmpty then (.error .Conflict, st)
    else if env.writeFails then (.error .Unknown, st)
    else
      (.ok (Pokemon.new number name types),
        ⟨st.records ++ [⟨env.freshId, number.val, name.val, types.val⟩]⟩)

/-- The validating loop of the remote `fetch_all`
(src/repositories/pokemon.rs:221-232): every row is re-validated through
the value-object constructors; the first invalid row fails the whole read. -/
def AirtableRepository.validateRecords :
    List AirtableRecord → Option (List Pokemon)
  | [] => some []
  | record :: rest =>
    match PokemonNumber.tryFrom record.number, PokemonName.tryFrom record.name,
        PokemonTypes.tryFrom record.types,
        AirtableRepository.validateRecords rest with
    | some number, some name, some types, some pokemons =>
      some (Pokemon.new number name types :: pokemons)
    | _, _, _, _ => none

/-- src/repositories/pokemon.rs:213-235. -/
def AirtableRepository.fetch_all (env : AirtableEnv) (st : AirtableState) :
    Except FetchAllError (List Pokemon) :=
  match AirtableRepository.fetch_pokemon_rows env st none with
  | .error _ => .error .Unknown
  | .ok rows =>
    match AirtableRepository.validateRecords rows with
    | some pokemons => .ok pokemons
    | none => .error .Unknown

/-- src/repositories/pokemon.rs:237-257: filtered read, NotFound on an
empty result, else validate the first row. -/
def AirtableRepository.fetch_one (env : AirtableEnv) (st : AirtableState)
    (number : PokemonNumber) : Except FetchOneError Pokemon :=
  match AirtableRepository.fetch_pokemon_rows env st (some number.val) with
  | .error _ => .error .Unknown
  | .ok [] => .error .NotFound
  | .ok (record :: _) =>
    match PokemonNumber.tryFrom record.number, PokemonName.tryFrom record.name,
        PokemonTypes.tryFrom record.types with
    | some n, some nm, some ts => .ok (Pokemon.new n nm ts)
    | _, _, _ => .error .Unknown

/-- src/repositories/pokemon.rs:259-278: filtered read, NotFound on an
empty result, else DELETE the first matching row by its id. -/
def AirtableRepository.delete (env : AirtableEnv) (st : AirtableState)
    (number : PokemonNumber) : Except DeleteError Unit × AirtableState :=
  match AirtableRepository.fetch_pokemon_rows env st (some number.val) with
  | .error _ => (.error .Unknown, st)
  | .ok [] => (.error .NotFound, st)
  | .ok (record :: _) =>
    if env.writeFails then (.error .Unknown, st)
    else (.ok (), ⟨st.records.filter (fun r => r.id != record.id)⟩)

/-! ### The backend union behind `Arc<dyn Repository>` (spec §9: a tagged
union of the three variants selected once at startup) -/

inductive Backend
  | inMemory (r : InMemoryRepository)
  | sqlite (env : SqliteEnv) (db : SqliteDb)
  | airtable (env : AirtableEnv) (st : AirtableState)

def Backend.insert (b : Backend) (number : PokemonNumber)
    (name : PokemonName) (types : PokemonTypes) :
    Except InsertError Pokemon × Backend :=
  match b with
  | .inMemory r =>
    let (res, r') := r.insert number name types
    (res, .inMemory r')
  | .sqlite env db =>
    let (res, db') := SqliteRepository.insert env db number name types
    (res, .sqlite env db')
  | .airtable env st =>
    let (res, st') := AirtableRepository.insert env st number name types
    (res, .airtable env st')

def Backend.fetch_all (b : Backend) :
    Except FetchAllError (List Pokemon) × Backend :=
  match b with
  | .inMemory r =>
    let (res, r') := r.fetch_all
    (res, .inMemory r')
  | .sqlite _ db => (SqliteRepository.fetch_all db, b)
  | .airtable env st => (AirtableRepository.fetch_all env st, b)

def Backend.fetch_one (b : Backend) (number : PokemonNumber) :
    Except FetchOneError Pokemon × Backend :=
  match b with
  | .inMemory r =>
    let (res, r') := r.fetch_one number
    (res, .inMemory r')
  | .sqlite _ db => (SqliteRepository.fetch_one db number, b)
  | .airtable env st => (AirtableRepository.fetch_one env st number, b)

def Backend.delete (b : Backend) (number : PokemonNumber) :
    Except DeleteError Unit × Backend :=
  match b with
  | .inMemory r =>
    let (res, r') := r.delete number
    (res, .inMemory r')
  | .sqlite env db =>
    let (res, db') := SqliteRepository.delete db number
    (res, .sqlite env db')
  | .airtable env st =>
    let (res, st') := AirtableRepository.delete env st number
    (res, .airtable env st')

/-! ### Use-case orchestrators (src/domain) -/

namespace create_pokemon

structure Request where
  number : Nat
  name : String
  types : List String
deriving DecidableEq, Repr

structure Response where
  number : Nat
  name : String
  types : List String
deriving DecidableEq, Repr

inductive Error
  | BadRequest
  | Conflict
  | Unknown
deriving DecidableEq, Repr

/-- src/domain/create_pokemon.rs:23-44: validate the three raw fields,
BadRequest if any fails, else insert and map Conflict/Unknown 1:1,
returning the record's primitives on success. -/
def execute (repo : Backend) (req : Request) :
    Except Error Response × Backend :=
  match PokemonNumber.tryFrom req.number, PokemonName.tryFrom req.name,
      PokemonTypes.tryFrom req.types with
  | some number, some name, some types =>
    match Backend.insert repo number name types with
    | (.ok pokemon, repo') =>
      (.ok ⟨pokemon.number.val, pokemon.name.val, pokemon.types.val⟩, repo')
    | (.error .Conflict, repo') => (.error .Conflict, repo')
    | (.error .Unknown, repo') => (.error .Unknown, repo')
  | _, _, _ => (.error .BadRequest, repo)

end create_pokemon

namespace fetch_pokemon

structure Request where
  number : Nat
deriving DecidableEq, Repr

structure Response where
  number : Nat
  name : String
  types : List String
deriving DecidableEq, Repr

inductive Error
  | BadRequest
  | NotFound
  | Unknown
deriving DecidableEq, Repr

/-- src/domain/fetch_pokemon.rs:21-38. -/
def execute (repo : Backend) (req : Request) :
    Except Error Response × Backend :=
  match PokemonNumber.tryFrom req.number with
  | some number =>
    match Backend.fetch_one repo number with
    | (.ok pokemon, repo') =>
      (.ok ⟨pokemon.number.val, pokemon.name.val, pokemon.types.val⟩, repo')
    | (.error .NotFound, repo') => (.error .NotFound, repo')
    | (.error .Unknown, repo') => (.error .Unknown, repo')
  | none => (.error .BadRequest, repo)

end fetch_pokemon

namespace fetch_all_pokemons

structure Response where
  number : Nat
  name : String
  types : List String
deriving DecidableEq, Repr

inductive Error
  | Unknown
deriving DecidableEq, Repr

/-- src/domain/fetch_all_pokemons.rs:14-26: no request fields to validate;
fetch all and convert every record to primitives. -/
def execute (repo : Backend) :
    Except Error (List Response) × Backend :=
  match Backend.fetch_all repo with
  | (.ok pokemons, repo') =>
    (.ok (pokemons.map fun p => ⟨p.number.val, p.name.val, p.types.val⟩), repo')
  | (.error .Unknown, repo') => (.error .Unknown, repo')

end fetch_all_pokemons

namespace delete_pokemon

structure Request where
  number : Nat
deriving DecidableEq, Repr

inductive Error
  | BadRequest
  | NotFound
  | Unknown
deriving DecidableEq, Repr

/-- Modelled from the spec: `src/domain/delete_pokemon.rs` is not among the
provided source files (only its API and CLI callers are, which fix the
`Request` shape and the error vocabulary). Per spec §4.6 it follows the
same shape as the other use-cases: validate the number (BadRequest on
failure, repository untouched), call `delete`, map NotFound/Unknown 1:1. -/
def execute (repo : Backend) (req : Request) :
    Except Error Unit × Backend :=
  match PokemonNumber.tryFrom req.number with
  | some number =>
    match Backend.delete repo number with
    | (.ok _, repo') => (.ok (), repo')
    | (.error .NotFound, repo') => (.error .NotFound, repo')
    | (.error .Unknown, repo') => (.error .Unknown, repo')
  | none => (.error .BadRequest, repo)

end delete_pokemon

/-! ### Test fixtures (the records of the source's tests and the spec's
scenarios: `PokemonNumber::pikachu()` is 25, `PokemonNumber::charmander()`
is 4) -/

def pikachu : Pokemon := ⟨⟨25⟩, ⟨"Pikachu"⟩, ⟨["Electric"]⟩⟩

def charmander : Pokemon := ⟨⟨4⟩, ⟨"Charmander"⟩, ⟨["Fire"]⟩⟩

/-! ### Sequential operation traces against the in-memory backend -/

inductive Op
  | insertOp (number : PokemonNumber) (name : PokemonName) (types : PokemonTypes)
  | fetchOneOp (number : PokemonNumber)
  | fetchAllOp
  | deleteOp (number : PokemonNumber)

/-- The state after one repository call (the returned value is dropped). -/
def applyOp (r : InMemoryRepository) : Op → InMemoryRepository
  | .insertOp number name types => (r.insert number name types).2
  | .fetchOneOp number => (r.fetch_one number).2
  | .fetchAllOp => r.fetch_all.2
  | .deleteOp number => (r.delete number).2

/-- The state after a sequential trace of repository calls. -/
def runOps (r : InMemoryRepository) : List Op → InMemoryRepository
  | [] => r
  | op :: ops => runOps (applyOp r op) ops

/-- No two stored records share a number. -/
def numbersNodup (r : InMemoryRepository) : Prop :=
  (r.pokemons.map fun p => p.number).Nodup

end Pokedex

/-! ## Theorems -/

namespace Pokedex

theorem numberTryFrom_val {n : Nat} {p : PokemonNumber}
    (h : PokemonNumber.tryFrom n = some p) : p.val = n := by
  unfold PokemonNumber.tryFrom at h
  split at h
  · cases h; rfl
  · cases h

theorem nameTryFrom_val {s : String} {q : PokemonName}
    (h : PokemonName.tryFrom s = some q) : q.val = s := by
  unfold PokemonName.tryFrom at h
  split at h
  · cases h
  · cases h; rfl

theorem typesTryFrom_val {ts : List String} {t : PokemonTypes}
    (h : PokemonTypes.tryFrom ts = some t) : t.val = ts := by
  unfold PokemonTypes.tryFrom at h
  split at h
  · cases h
  · split at h
    · cases h; rfl
    · cases h


theorem sortByNumber_sorted (l : List Pokemon) : (sortByNumber l).Pairwise pokemonLe :=
  List.sorted_insertionSort pokemonLe l

theorem sortByNumber_perm (l : List Pokemon) : (sortByNumber l).Perm l :=
  List.perm_insertionSort pokemonLe l

theorem assemble_map_number (db : SqliteDb) :
    ∀ (rows : List (Nat × String)) (ps : List Pokemon),
      SqliteRepository.assemble db rows = some ps →
      ps.map (fun p => p.number.val) = rows.map (fun row => row.1) := by
  intro rows
  induction rows with
  | nil =>
    intro ps h
    simp only [SqliteRepository.assemble, Option.some.injEq] at h
    subst h
    rfl
  | cons row rest ih =>
    intro ps h
    simp only [SqliteRepository.assemble] at h
    split at h
    case _ number name types pokemons hn hnm hts hrest =>
      cases h
      simp only [List.map_cons]
      exact congrArg₂ (· :: ·) (numberTryFrom_val hn) (ih pokemons hrest)
    case _ => cases h



theorem inMemory_fetch_all_spec {r : InMemoryRepository} {ps : List Pokemon}
    {b : InMemoryRepository} (h : r.fetch_all = (.ok ps, b)) :
    ps.Pairwise pokemonLe ∧ ps.Perm r.pokemons := by
  unfold InMemoryRepository.fetch_all at h
  split at h
  · simp at h
  · simp only [Prod.mk.injEq, Except.ok.injEq] at h
    obtain ⟨h1, -⟩ := h
    subst h1
    exact ⟨sortByNumber_sorted _, sortByNumber_perm _⟩

theorem sqlite_fetch_all_sorted {db : SqliteDb} (hwf : db.WF) {ps : List Pokemon}
    (h : SqliteRepository.fetch_all db = .ok ps) : ps.Pairwise pokemonLe := by
  unfold SqliteRepository.fetch_all at h
  split at h
  case _ pokemons hasm =>
    cases h
    have hmap := assemble_map_number db _ _ hasm
    simp only [SqliteRepository.fetch_pokemon_rows] at hmap
    have h1 : (db.pokemons.map (fun row => row.1)).Pairwise (· < ·) :=
      List.pairwise_map.2 hwf
    rw [← hmap] at h1
    have h2 := List.pairwise_map.1 h1
    exact h2.imp Nat.le_of_lt
  case _ => cases h

instance : IsTotal AirtableRecord airtableRecordLe :=
  ⟨fun a b => Nat.le_total a.number b.number⟩

instance : IsTrans AirtableRecord airtableRecordLe := ⟨fun _ _ _ => Nat.le_trans⟩

theorem validateRecords_map_number :
    ∀ (rows : List AirtableRecord) (ps : List Pokemon),
      AirtableRepository.validateRecords rows = some ps →
      ps.map (fun p => p.number.val) = rows.map (fun record => record.number) := by
  intro rows
  induction rows with
  | nil =>
    intro ps h
    simp only [AirtableRepository.validateRecords, Option.some.injEq] at h
    subst h
    rfl
  | cons record rest ih =>
    intro ps h
    simp only [AirtableRepository.validateRecords] at h
    split at h
    case _ number name types pokemons hn hnm hts hrest =>
      cases h
      simp only [List.map_cons]
      exact congrArg₂ (· :: ·) (numberTryFrom_val hn) (ih pokemons hrest)
    case _ => cases h

theorem airtable_rows_unfiltered {env : AirtableEnv} {st : AirtableState}
    {rows : List AirtableRecord}
    (h : AirtableRepository.fetch_pokemon_rows env st none = .ok rows) :
    rows = List.insertionSort airtableRecordLe st.records := by
  unfold AirtableRepository.fetch_pokemon_rows at h
  split at h
  · cases h
  · cases h
    rfl

theorem airtable_fetch_all_sorted {env : AirtableEnv} {st : AirtableState}
    {ps : List Pokemon} (h : AirtableRepository.fetch_all env st = .ok ps) :
    ps.Pairwise pokemonLe := by
  unfold AirtableRepository.fetch_all at h
  split at h
  case _ => cases h
  case _ rows heq =>
    have hrows := airtable_rows_unfiltered heq
    subst hrows
    split at h
    case _ pokemons hval =>
      cases h
      have hmap := validateRecords_map_number _ _ hval
      have hsorted : (List.insertionSort airtableRecordLe st.records).Pairwise airtableRecordLe :=
        List.sorted_insertionSort airtableRecordLe st.records
      have h1 : ((List.insertionSort airtableRecordLe st.records).map
          (fun record => record.number)).Pairwise (· ≤ ·) :=
        List.pairwise_map.2 hsorted
      rw [← hmap] at h1
      have h2 : ps.Pairwise (fun a b => a.number.val ≤ b.number.val) :=
        List.pairwise_map.1 h1
      exact h2
    case _ => cases h



/-- C1: for every backend (InMemory, Relational, Remote), a successful
`fetch_all` returns the stored records sorted in ascending order of number
(for the in-memory backend also a permutation of the store); in particular,
after inserting numbers 25 and 4, `fetch_all` yields them ordered [4, 25]
on each backend. -/
theorem C1_fetch_all_sorted :
    (∀ (r : InMemoryRepository) (ps : List Pokemon) (b : InMemoryRepository),
        r.fetch_all = (.ok ps, b) → ps.Pairwise pokemonLe ∧ ps.Perm r.pokemons)
    ∧ (∀ db : SqliteDb, db.WF → ∀ ps : List Pokemon,
        SqliteRepository.fetch_all db = .ok ps → ps.Pairwise pokemonLe)
    ∧ (∀ (env : AirtableEnv) (st : AirtableState) (ps : List Pokemon),
        AirtableRepository.fetch_all env st = .ok ps → ps.Pairwise pokemonLe)
    ∧ ((InMemoryRepository.new.insert pikachu.number pikachu.name pikachu.types).2.insert
          charmander.number charmander.name charmander.types).2.fetch_all.1 =
        .ok [charmander, pikachu]
    ∧ SqliteRepository.fetch_all
          (SqliteRepository.insert SqliteEnv.ok
            (SqliteRepository.insert SqliteEnv.ok SqliteDb.empty pikachu.number pikachu.name
                pikachu.types).2
            charmander.number charmander.name charmander.types).2 =
        .ok [charmander, pikachu]
    ∧ AirtableRepository.fetch_all AirtableEnv.ok
          (AirtableRepository.insert AirtableEnv.ok
            (AirtableRepository.insert AirtableEnv.ok ⟨[]⟩ pikachu.number pikachu.name
                pikachu.types).2
            charmander.number charmander.name charmander.types).2 =
        .ok [charmander, pikachu] :=
  ⟨fun _ _ _ h => inMemory_fetch_all_spec h,
    fun _ hwf _ h => sqlite_fetch_all_sorted hwf h,
    fun _ _ _ h => airtable_fetch_all_sorted h,
    rfl, rfl, rfl⟩

theorem C1_fetch_all_sorted_witness :
    ([charmander, pikachu].Pairwise pokemonLe ∧
      [charmander, pikachu].Perm
        ((InMemoryRepository.new.insert pikachu.number pikachu.name pikachu.types).2.insert
            charmander.number charmander.name charmander.types).2.pokemons)
    ∧ [charmander, pikachu].Pairwise pokemonLe
    ∧ [charmander, pikachu].Pairwise pokemonLe :=
  ⟨C1_fetch_all_sorted.1
      ((InMemoryRepository.new.insert pikachu.number pikachu.name pikachu.types).2.insert
          charmander.number charmander.name charmander.types).2
      [charmander, pikachu]
      ((InMemoryRepository.new.insert pikachu.number pikachu.name pikachu.types).2.insert
          charmander.number charmander.name charmander.types).2
      rfl,
    C1_fetch_all_sorted.2.1
      (SqliteRepository.insert SqliteEnv.ok
        (SqliteRepository.insert SqliteEnv.ok SqliteDb.empty pikachu.number pikachu.name
            pikachu.types).2
        charmander.number charmander.name charmander.types).2
      (by unfold SqliteDb.WF; decide) [charmander, pikachu] rfl,
    C1_fetch_all_sorted.2.2.1 AirtableEnv.ok
      (AirtableRepository.insert AirtableEnv.ok
        (AirtableRepository.insert AirtableEnv.ok ⟨[]⟩ pikachu.number pikachu.name
            pikachu.types).2
        charmander.number charmander.name charmander.types).2
      [charmander, pikachu] rfl⟩

theorem inMemory_insert_conflict_iff {r : InMemoryRepository} (he : r.error = false)
    (number : PokemonNumber) (name : PokemonName) (types : PokemonTypes) :
    (r.insert number name types).1 = .error .Conflict ↔
      ∃ p ∈ r.pokemons, p.number = number := by
  unfold InMemoryRepository.insert
  rw [he]
  simp only [Bool.false_eq_true, if_false]
  cases hd : r.pokemons.any (fun pokemon => pokemon.number == number) with
  | true =>
    simp only [hd, if_true]
    simp only [List.any_eq_true, beq_iff_eq] at hd
    simpa using hd
  | false =>
    simp only [hd, Bool.false_eq_true, if_false]
    simp only [List.any_eq_false, beq_iff_eq] at hd
    constructor
    · intro h
      cases h
    · rintro ⟨p, hp, hpn⟩
      exact absurd hpn (hd p hp)



theorem sqlite_insert_conflict_iff {env : SqliteEnv} (hl : env.lockOk = true)
    (ht : env.txOk = true) (hr : env.recordStmtError = none)
    (db : SqliteDb) (number : PokemonNumber) (name : PokemonName)
    (types : PokemonTypes) :
    (SqliteRepository.insert env db number name types).1 = .error .Conflict ↔
      ∃ row ∈ db.pokemons, row.1 = number.val := by
  unfold SqliteRepository.insert execInsertPokemonRow
  rw [hl, ht, hr]
  simp only [Bool.not_true, Bool.false_eq_true, if_false]
  cases hd : db.pokemons.any (fun row => row.1 == number.val) with
  | true =>
    simp only [hd, if_true]
    simp only [List.any_eq_true, beq_iff_eq] at hd
    rw [if_pos (by decide : (uniqueViolationMessage ==
      "UNIQUE constraint failed: pokemons.number") = true)]
    simpa using hd
  | false =>
    simp only [hd, Bool.false_eq_true, if_false]
    simp only [List.any_eq_false, beq_iff_eq] at hd
    constructor
    · intro h
      split at h
      · simp at h
      · split at h <;> simp at h
    · rintro ⟨row, hrow, hrn⟩
      exact absurd hrn (hd row hrow)



theorem airtable_insert_conflict_iff {env : AirtableEnv}
    (hread : env.readFails = false) (st : AirtableState)
    (number : PokemonNumber) (name : PokemonName) (types : PokemonTypes) :
    (AirtableRepository.insert env st number name types).1 = .error .Conflict ↔
      ∃ record ∈ st.records, record.number = number.val := by
  unfold AirtableRepository.insert AirtableRepository.fetch_pokemon_rows
  rw [hread]
  simp only [Bool.false_eq_true, if_false]
  cases hf : st.records.filter (fun record => record.number == number.val) with
  | nil =>
    simp only [hf, List.isEmpty_nil, Bool.not_false, Bool.false_eq_true, if_false]
    rw [List.filter_eq_nil_iff] at hf
    simp only [beq_iff_eq] at hf
    constructor
    · intro h
      rw [if_neg (by simp)] at h
      split at h <;> simp at h
    · rintro ⟨record, hrec, hrn⟩
      exact absurd hrn (hf record hrec)
  | cons record rest =>
    simp only [hf, List.isEmpty_cons, Bool.not_false, if_true]
    constructor
    · intro _
      have : record ∈ st.records.filter (fun record => record.number == number.val) := by
        rw [hf]; exact List.mem_cons_self record rest
      have hmem := List.mem_filter.1 this
      exact ⟨record, hmem.1, by simpa using hmem.2⟩
    · intro _
      trivial



theorem inMemory_insert_twice {r r' : InMemoryRepository} {p : Pokemon}
    {number : PokemonNumber} {nm : PokemonName} {ts : PokemonTypes}
    (nm' : PokemonName) (ts' : PokemonTypes)
    (h : r.insert number nm ts = (.ok p, r')) :
    (r'.insert number nm' ts').1 = .error .Conflict := by
  unfold InMemoryRepository.insert at h ⊢
  cases he : r.error with
  | true => rw [he] at h; simp at h
  | false =>
    rw [he] at h
    simp only [Bool.false_eq_true, if_false] at h
    cases hd : r.pokemons.any (fun pokemon => pokemon.number == number) with
    | true => rw [hd] at h; simp at h
    | false =>
      rw [hd] at h
      simp only [Bool.false_eq_true, if_false, Prod.mk.injEq, Except.ok.injEq] at h
      obtain ⟨-, h2⟩ := h
      subst h2
      simp [he, List.any_eq_true]
      have hcond : (∃ x ∈ r.pokemons, x.number = number) ∨
          (Pokemon.new number nm ts).number = number := Or.inr rfl
      rw [if_pos hcond]



theorem execInsertTypeRows_pokemons {env : SqliteEnv} {n : Nat} :
    ∀ (ts : List String) (db : SqliteDb) (i : Nat) (db' : SqliteDb),
      execInsertTypeRows env n db ts i = .ok db' → db'.pokemons = db.pokemons := by
  intro ts
  induction ts with
  | nil =>
    intro db i db' h
    simp only [execInsertTypeRows, Except.ok.injEq] at h
    subst h
    rfl
  | cons t rest ih =>
    intro db i db' h
    simp only [execInsertTypeRows] at h
    split at h
    · cases h
    · rw [ih _ _ _ h]

theorem insertPokemonRow_mem_self (n : Nat) (name : String) :
    ∀ rows : List (Nat × String), ∃ row ∈ insertPokemonRow n name rows, row.1 = n := by
  intro rows
  induction rows with
  | nil => exact ⟨(n, name), List.mem_singleton.2 rfl, rfl⟩
  | cons row rest ih =>
    unfold insertPokemonRow
    split
    · exact ⟨(n, name), List.mem_cons_self _ _, rfl⟩
    · obtain ⟨row', hmem, hval⟩ := ih
      exact ⟨row', List.mem_cons_of_mem _ hmem, hval⟩

theorem sqlite_insert_twice {env : SqliteEnv} {db db' : SqliteDb} {p : Pokemon}
    {number : PokemonNumber} {nm : PokemonName} {ts : PokemonTypes}
    (nm' : PokemonName) (ts' : PokemonTypes)
    (h : SqliteRepository.insert env db number nm ts = (.ok p, db')) :
    (SqliteRepository.insert env db' number nm' ts').1 = .error .Conflict := by
  unfold SqliteRepository.insert at h
  cases hl : env.lockOk with
  | false => rw [hl] at h; simp at h
  | true =>
    rw [hl] at h
    simp only [Bool.not_true, Bool.false_eq_true, if_false] at h
    cases ht : env.txOk with
    | false => rw [ht] at h; simp at h
    | true =>
      rw [ht] at h
      simp only [Bool.not_true, Bool.false_eq_true, if_false] at h
      cases hrse : env.recordStmtError with
      | some m =>
        unfold execInsertPokemonRow at h
        rw [hrse] at h
        split at h
        case h_1 _ heq => split at h <;> simp at h
        case h_2 heq => simp at h
        case h_3 _ heq => simp at heq
      | none =>
        unfold execInsertPokemonRow at h
        rw [hrse] at h
        split at h
        case h_1 _ heq =>
          split at h <;> simp at h
        case h_2 heq =>
          simp at h
        case h_3 db1 heq =>
          cases hdup : db.pokemons.any (fun row => row.1 == number.val) with
          | true =>
            rw [hdup] at heq
            simp at heq
          | false =>
            rw [hdup] at heq
            simp only [Bool.false_eq_true, if_false, Except.ok.injEq] at heq
            subst heq
            split at h
            · simp at h
            case h_2 db2 heq2 =>
              split at h
              case isTrue hc =>
                simp only [Prod.mk.injEq, Except.ok.injEq] at h
                obtain ⟨-, hdb'⟩ := h
                subst hdb'
                have hpok : db2.pokemons =
                    insertPokemonRow number.val nm.val db.pokemons := by
                  rw [execInsertTypeRows_pokemons _ _ _ _ heq2]
                obtain ⟨row, hmem, hval⟩ :=
                  insertPokemonRow_mem_self number.val nm.val db.pokemons
                exact (sqlite_insert_conflict_iff hl ht hrse db2 number nm' ts').2
                  ⟨row, by rw [hpok]; exact hmem, hval⟩
              case isFalse hc =>
                simp at h



theorem airtable_insert_twice {env : AirtableEnv} {st st' : AirtableState}
    {p : Pokemon} {number : PokemonNumber} {nm : PokemonName} {ts : PokemonTypes}
    (nm' : PokemonName) (ts' : PokemonTypes)
    (h : AirtableRepository.insert env st number nm ts = (.ok p, st')) :
    (AirtableRepository.insert env st' number nm' ts').1 = .error .Conflict := by
  unfold AirtableRepository.insert AirtableRepository.fetch_pokemon_rows at h
  cases hread : env.readFails with
  | true => rw [hread] at h; simp at h
  | false =>
    rw [hread] at h
    simp only [Bool.false_eq_true, if_false] at h
    cases hf : st.records.filter (fun record => record.number == number.val) with
    | cons r rest =>
      rw [hf] at h
      simp at h
    | nil =>
      rw [hf] at h
      simp only [List.isEmpty_nil, Bool.not_true, Bool.false_eq_true, if_false] at h
      cases hw : env.writeFails with
      | true =>
        rw [hw] at h
        simp at h
      | false =>
        rw [hw] at h
        simp only [Bool.false_eq_true, if_false, Prod.mk.injEq, Except.ok.injEq] at h
        obtain ⟨-, hst'⟩ := h
        subst hst'
        apply (airtable_insert_conflict_iff hread _ number nm' ts').2
        refine ⟨⟨env.freshId, number.val, nm.val, ts.val⟩, ?_, rfl⟩
        exact List.mem_append_right _ (List.mem_singleton.2 rfl)



/-- C2: for every backend, `insert` returns Conflict iff a record with that
number already exists (when the storage medium itself does not fail); in
particular a second insert of the same number after a successful first one
yields Conflict, for any names and type sets. -/
theorem C2_insert_conflict_iff :
    (∀ r : InMemoryRepository, r.error = false →
      ∀ (number : PokemonNumber) (name : PokemonName) (types : PokemonTypes),
        ((r.insert number name types).1 = .error .Conflict ↔
          ∃ p ∈ r.pokemons, p.number = number))
    ∧ (∀ env : SqliteEnv, env.lockOk = true → env.txOk = true →
        env.recordStmtError = none →
        ∀ (db : SqliteDb) (number : PokemonNumber) (name : PokemonName)
          (types : PokemonTypes),
          ((SqliteRepository.insert env db number name types).1 = .error .Conflict ↔
            ∃ row ∈ db.pokemons, row.1 = number.val))
    ∧ (∀ env : AirtableEnv, env.readFails = false →
        ∀ (st : AirtableState) (number : PokemonNumber) (name : PokemonName)
          (types : PokemonTypes),
          ((AirtableRepository.insert env st number name types).1 = .error .Conflict ↔
            ∃ record ∈ st.records, record.number = number.val))
    ∧ (∀ (r r' : InMemoryRepository) (p : Pokemon) (number : PokemonNumber)
        (nm nm' : PokemonName) (ts ts' : PokemonTypes),
        r.insert number nm ts = (.ok p, r') →
        (r'.insert number nm' ts').1 = .error .Conflict)
    ∧ (∀ (env : SqliteEnv) (db db' : SqliteDb) (p : Pokemon)
        (number : PokemonNumber) (nm nm' : PokemonName) (ts ts' : PokemonTypes),
        SqliteRepository.insert env db number nm ts = (.ok p, db') →
        (SqliteRepository.insert env db' number nm' ts').1 = .error .Conflict)
    ∧ (∀ (env : AirtableEnv) (st st' : AirtableState) (p : Pokemon)
        (number : PokemonNumber) (nm nm' : PokemonName) (ts ts' : PokemonTypes),
        AirtableRepository.insert env st number nm ts = (.ok p, st') →
        (AirtableRepository.insert env st' number nm' ts').1 = .error .Conflict) :=
  ⟨fun _ he => inMemory_insert_conflict_iff he,
    fun _ hl ht hr => sqlite_insert_conflict_iff hl ht hr,
    fun _ hread => airtable_insert_conflict_iff hread,
    fun _ _ _ _ _ nm' _ ts' h => inMemory_insert_twice nm' ts' h,
    fun _ _ _ _ _ _ nm' _ ts' h => sqlite_insert_twice nm' ts' h,
    fun _ _ _ _ _ _ nm' _ ts' h => airtable_insert_twice nm' ts' h⟩

theorem C2_insert_conflict_iff_witness :
    ((InMemoryRepository.new.insert pikachu.number pikachu.name pikachu.types).1 =
        .error .Conflict ↔
      ∃ p ∈ InMemoryRepository.new.pokemons, p.number = pikachu.number)
    ∧ ((InMemoryRepository.new.insert pikachu.number pikachu.name
          pikachu.types).2.insert pikachu.number charmander.name charmander.types).1 =
        .error .Conflict
    ∧ (SqliteRepository.insert SqliteEnv.ok
        (SqliteRepository.insert SqliteEnv.ok SqliteDb.empty pikachu.number pikachu.name
            pikachu.types).2
        pikachu.number charmander.name charmander.types).1 = .error .Conflict
    ∧ (AirtableRepository.insert AirtableEnv.ok
        (AirtableRepository.insert AirtableEnv.ok ⟨[]⟩ pikachu.number pikachu.name
            pikachu.types).2
        pikachu.number charmander.name charmander.types).1 = .error .Conflict :=
  ⟨C2_insert_conflict_iff.1 InMemoryRepository.new rfl pikachu.number pikachu.name
      pikachu.types,
    C2_insert_conflict_iff.2.2.2.1 InMemoryRepository.new _ _ pikachu.number
      pikachu.name charmander.name pikachu.types charmander.types rfl,
    C2_insert_conflict_iff.2.2.2.2.1 SqliteEnv.ok SqliteDb.empty _ _ pikachu.number
      pikachu.name charmander.name pikachu.types charmander.types rfl,
    C2_insert_conflict_iff.2.2.2.2.2 AirtableEnv.ok ⟨[]⟩ _ _ pikachu.number
      pikachu.name charmander.name pikachu.types charmander.types rfl⟩



theorem sqlite_insert_error_frame {env : SqliteEnv} {db : SqliteDb}
    {number : PokemonNumber} {nm : PokemonName} {ts : PokemonTypes}
    {e : InsertError} {db' : SqliteDb}
    (h : SqliteRepository.insert env db number nm ts = (.error e, db')) :
    db' = db := by
  unfold SqliteRepository.insert at h
  split at h
  · exact (congrArg Prod.snd h).symm
  · split at h
    · exact (congrArg Prod.snd h).symm
    · split at h
      case h_1 => split at h <;> exact (congrArg Prod.snd h).symm
      case h_2 => exact (congrArg Prod.snd h).symm
      case h_3 =>
        split at h
        · exact (congrArg Prod.snd h).symm
        · split at h
          · simp at h
          · exact (congrArg Prod.snd h).symm

theorem sqlite_insert_conflict_only_on_dup {env : SqliteEnv} {db : SqliteDb}
    {number : PokemonNumber} {nm : PokemonName} {ts : PokemonTypes}
    (hm : ∀ m : String, env.recordStmtError = some (some m) →
      m ≠ uniqueViolationMessage)
    (h : (SqliteRepository.insert env db number nm ts).1 = .error .Conflict) :
    ∃ row ∈ db.pokemons, row.1 = number.val := by
  unfold SqliteRepository.insert at h
  split at h
  · simp at h
  · split at h
    · simp at h
    · split at h
      case h_1 message heq =>
        split at h
        case isTrue hmsg =>
          unfold execInsertPokemonRow at heq
          cases hrse : env.recordStmtError with
          | some m0 =>
            rw [hrse] at heq
            simp only [Except.error.injEq] at heq
            subst heq
            exact absurd (by simpa [uniqueViolationMessage] using hmsg)
              (hm message hrse)
          | none =>
            rw [hrse] at heq
            cases hdup : db.pokemons.any (fun row => row.1 == number.val) with
            | true =>
              simp only [List.any_eq_true, beq_iff_eq] at hdup
              obtain ⟨row, hmem, hval⟩ := hdup
              exact ⟨row, hmem, hval⟩
            | false =>
              rw [hdup] at heq
              simp at heq
        case isFalse hmsg => simp at h
      case h_2 heq => simp at h
      case h_3 db1 heq =>
        split at h
        · simp at h
        · split at h <;> simp at h



/-- C3: for the relational backend, every failing `insert` leaves the
database exactly as it was (the uncommitted transaction is rolled back, so
no records row without its tag rows and no partial tag rows survive), and a
failure is classified Conflict only when a row with that primary key really
exists — under the realistic assumption that an independent driver failure
does not carry the exact uniqueness-violation message. Since `InsertError`
has only the two constructors Conflict and Unknown, every other failure is
Unknown. -/
theorem C3_sqlite_insert_rollback :
    (∀ (env : SqliteEnv) (db : SqliteDb) (number : PokemonNumber)
        (nm : PokemonName) (ts : PokemonTypes) (e : InsertError) (db' : SqliteDb),
        SqliteRepository.insert env db number nm ts = (.error e, db') → db' = db)
    ∧ (∀ (env : SqliteEnv) (db : SqliteDb) (number : PokemonNumber)
        (nm : PokemonName) (ts : PokemonTypes),
        (∀ m : String, env.recordStmtError = some (some m) →
          m ≠ uniqueViolationMessage) →
        (SqliteRepository.insert env db number nm ts).1 = .error .Conflict →
        ∃ row ∈ db.pokemons, row.1 = number.val) :=
  ⟨fun _ _ _ _ _ _ _ h => sqlite_insert_error_frame h,
    fun _ _ _ _ _ hm h => sqlite_insert_conflict_only_on_dup hm h⟩

theorem C3_sqlite_insert_rollback_witness :
    SqliteDb.empty = SqliteDb.empty ∧
      ∃ row ∈ (⟨[(25, "Pikachu")], [(25, "Electric")]⟩ : SqliteDb).pokemons,
        row.1 = (⟨25⟩ : PokemonNumber).val :=
  ⟨C3_sqlite_insert_rollback.1 ⟨true, true, none, fun _ => true, true⟩
      SqliteDb.empty ⟨25⟩ ⟨"Pikachu"⟩ ⟨["Electric"]⟩ .Unknown SqliteDb.empty rfl,
    C3_sqlite_insert_rollback.2 SqliteEnv.ok ⟨[(25, "Pikachu")], [(25, "Electric")]⟩
      ⟨25⟩ ⟨"Charmander"⟩ ⟨["Fire"]⟩ (fun m hmm => by simp [SqliteEnv.ok] at hmm) rfl⟩



theorem inMemory_absent_not_found {r : InMemoryRepository} (he : r.error = false)
    {number : PokemonNumber} (habs : ∀ p ∈ r.pokemons, p.number ≠ number) :
    (r.fetch_one number).1 = .error .NotFound ∧
      (r.delete number).1 = .error .NotFound := by
  constructor
  · unfold InMemoryRepository.fetch_one
    rw [he]
    simp only [Bool.false_eq_true, if_false]
    rw [List.find?_eq_none.2 (fun p hp => by simpa using habs p hp)]
  · unfold InMemoryRepository.delete
    rw [he]
    simp only [Bool.false_eq_true, if_false]
    rw [List.findIdx?_eq_none_iff.2 (fun p hp => by simpa using habs p hp)]

theorem sqlite_absent_not_found {db : SqliteDb} {number : PokemonNumber}
    (habs : ∀ row ∈ db.pokemons, row.1 ≠ number.val) :
    SqliteRepository.fetch_one db number = .error .NotFound ∧
      (SqliteRepository.delete db number).1 = .error .NotFound := by
  have hf : db.pokemons.filter (fun row => row.1 == number.val) = [] :=
    List.filter_eq_nil_iff.2 (fun row hr => by simpa using habs row hr)
  constructor
  · unfold SqliteRepository.fetch_one
    have hrows : SqliteRepository.fetch_pokemon_rows db (some number.val) = [] := hf
    rw [hrows]
  · unfold SqliteRepository.delete
    rw [hf]
    rfl

theorem sqlite_delete_not_found_iff (db : SqliteDb) (number : PokemonNumber) :
    (SqliteRepository.delete db number).1 = .error .NotFound ↔
      (db.pokemons.filter (fun row => row.1 == number.val)).length = 0 := by
  unfold SqliteRepository.delete
  by_cases hc : (db.pokemons.filter (fun row => row.1 == number.val)).length = 0
  · simp [hc]
  · simp [hc]

theorem airtable_absent_not_found {env : AirtableEnv} (hread : env.readFails = false)
    {st : AirtableState} {number : PokemonNumber}
    (habs : ∀ record ∈ st.records, record.number ≠ number.val) :
    AirtableRepository.fetch_one env st number = .error .NotFound ∧
      (AirtableRepository.delete env st number).1 = .error .NotFound := by
  have hrows : AirtableRepository.fetch_pokemon_rows env st (some number.val) =
      .ok [] := by
    unfold AirtableRepository.fetch_pokemon_rows
    rw [hread]
    simp only [Bool.false_eq_true, if_false]
    exact congrArg Except.ok
      (List.filter_eq_nil_iff.2 (fun record hr => by simpa using habs record hr))
  constructor
  · unfold AirtableRepository.fetch_one
    rw [hrows]
  · unfold AirtableRepository.delete
    rw [hrows]



/-- C4: on every backend, `fetch_one` of an absent number is NotFound and
`delete` of an absent number is NotFound; for the relational backend,
`delete` decides NotFound exactly when the delete statement affects zero
rows. -/
theorem C4_absent_not_found :
    (∀ r : InMemoryRepository, r.error = false →
      ∀ number : PokemonNumber, (∀ p ∈ r.pokemons, p.number ≠ number) →
        (r.fetch_one number).1 = .error .NotFound ∧
          (r.delete number).1 = .error .NotFound)
    ∧ (∀ (db : SqliteDb) (number : PokemonNumber),
        (∀ row ∈ db.pokemons, row.1 ≠ number.val) →
        SqliteRepository.fetch_one db number = .error .NotFound ∧
          (SqliteRepository.delete db number).1 = .error .NotFound)
    ∧ (∀ (db : SqliteDb) (number : PokemonNumber),
        ((SqliteRepository.delete db number).1 = .error .NotFound ↔
          (db.pokemons.filter (fun row => row.1 == number.val)).length = 0))
    ∧ (∀ env : AirtableEnv, env.readFails = false →
        ∀ (st : AirtableState) (number : PokemonNumber),
          (∀ record ∈ st.records, record.number ≠ number.val) →
          AirtableRepository.fetch_one env st number = .error .NotFound ∧
            (AirtableRepository.delete env st number).1 = .error .NotFound) :=
  ⟨fun _ he _ habs => inMemory_absent_not_found he habs,
    fun _ _ habs => sqlite_absent_not_found habs,
    sqlite_delete_not_found_iff,
    fun _ hread _ _ habs => airtable_absent_not_found hread habs⟩

theorem C4_absent_not_found_witness :
    ((InMemoryRepository.new.fetch_one ⟨25⟩).1 = .error .NotFound ∧
      (InMemoryRepository.new.delete ⟨25⟩).1 = .error .NotFound)
    ∧ (SqliteRepository.fetch_one SqliteDb.empty ⟨25⟩ = .error .NotFound ∧
      (SqliteRepository.delete SqliteDb.empty ⟨25⟩).1 = .error .NotFound)
    ∧ ((SqliteRepository.delete SqliteDb.empty ⟨25⟩).1 = .error .NotFound ↔
      (SqliteDb.empty.pokemons.filter (fun row => row.1 == (⟨25⟩ : PokemonNumber).val)).length = 0)
    ∧ (AirtableRepository.fetch_one AirtableEnv.ok ⟨[]⟩ ⟨25⟩ = .error .NotFound ∧
      (AirtableRepository.delete AirtableEnv.ok ⟨[]⟩ ⟨25⟩).1 = .error .NotFound) :=
  ⟨C4_absent_not_found.1 InMemoryRepository.new rfl ⟨25⟩
      (fun p hp => absurd hp (List.not_mem_nil p)),
    C4_absent_not_found.2.1 SqliteDb.empty ⟨25⟩
      (fun row hr => absurd hr (List.not_mem_nil row)),
    C4_absent_not_found.2.2.1 SqliteDb.empty ⟨25⟩,
    C4_absent_not_found.2.2.2 AirtableEnv.ok rfl ⟨[]⟩ ⟨25⟩
      (fun record hr => absurd hr (List.not_mem_nil record))⟩



/-- C5: the fallible `Number` constructor fails on every u16 value outside
the configured valid range — in particular on the reserved sentinel 0 —
and succeeds on every value inside it. -/
theorem C5_number_range :
    PokemonNumber.tryFrom 0 = none ∧
      ∀ n : Nat, (PokemonNumber.tryFrom n).isSome ↔ 1 ≤ n ∧ n ≤ pokemonNumberMax := by
  refine ⟨rfl, fun n => ?_⟩
  unfold PokemonNumber.tryFrom
  split
  case isTrue hc =>
    simpa using (by simpa using hc : 1 ≤ n ∧ n ≤ pokemonNumberMax)
  case isFalse hc =>
    simpa using (by simpa using hc : ¬(1 ≤ n ∧ n ≤ pokemonNumberMax))

/-- C6: each value-object constructor is a lossless round-trip: whenever
construction from a primitive succeeds, the accessor returns exactly the
original primitive. -/
theorem C6_round_trip :
    (∀ (n : Nat) (p : PokemonNumber), PokemonNumber.tryFrom n = some p → p.val = n)
    ∧ (∀ (s : String) (q : PokemonName), PokemonName.tryFrom s = some q → q.val = s)
    ∧ (∀ (ts : List String) (t : PokemonTypes),
        PokemonTypes.tryFrom ts = some t → t.val = ts) :=
  ⟨fun _ _ => numberTryFrom_val,
    fun _ _ => nameTryFrom_val,
    fun _ _ => typesTryFrom_val⟩

theorem C6_round_trip_witness :
    (⟨25⟩ : PokemonNumber).val = 25 ∧ (⟨"Pikachu"⟩ : PokemonName).val = "Pikachu" ∧
      (⟨["Electric"]⟩ : PokemonTypes).val = ["Electric"] :=
  ⟨C6_round_trip.1 25 ⟨25⟩ rfl,
    C6_round_trip.2.1 "Pikachu" ⟨"Pikachu"⟩ rfl,
    C6_round_trip.2.2 ["Electric"] ⟨["Electric"]⟩ rfl⟩



theorem create_execute_spec (repo : Backend) (req : create_pokemon.Request) :
    ((PokemonNumber.tryFrom req.number = none ∨ PokemonName.tryFrom req.name = none ∨
        PokemonTypes.tryFrom req.types = none) →
      create_pokemon.execute repo req = (.error .BadRequest, repo))
    ∧ ∀ (number : PokemonNumber) (name : PokemonName) (types : PokemonTypes),
        PokemonNumber.tryFrom req.number = some number →
        PokemonName.tryFrom req.name = some name →
        PokemonTypes.tryFrom req.types = some types →
        (∀ (p : Pokemon) (repo' : Backend),
            Backend.insert repo number name types = (.ok p, repo') →
            create_pokemon.execute repo req =
              (.ok ⟨p.number.val, p.name.val, p.types.val⟩, repo'))
        ∧ (∀ repo' : Backend,
            Backend.insert repo number name types = (.error .Conflict, repo') →
            create_pokemon.execute repo req = (.error .Conflict, repo'))
        ∧ (∀ repo' : Backend,
            Backend.insert repo number name types = (.error .Unknown, repo') →
            create_pokemon.execute repo req = (.error .Unknown, repo')) := by
  constructor
  · intro hbad
    unfold create_pokemon.execute
    split
    case h_1 number name types hn hnm hts =>
      rcases hbad with hb | hb | hb <;> simp_all
    case h_2 => rfl
  · intro number name types hn hnm hts
    refine ⟨?_, ?_, ?_⟩
    · intro p repo' h
      unfold create_pokemon.execute
      simp only [hn, hnm, hts, h]
    · intro repo' h
      unfold create_pokemon.execute
      simp only [hn, hnm, hts, h]
    · intro repo' h
      unfold create_pokemon.execute
      simp only [hn, hnm, hts, h]



theorem fetch_execute_spec (repo : Backend) (req : fetch_pokemon.Request) :
    (PokemonNumber.tryFrom req.number = none →
      fetch_pokemon.execute repo req = (.error .BadRequest, repo))
    ∧ ∀ number : PokemonNumber, PokemonNumber.tryFrom req.number = some number →
        (∀ (p : Pokemon) (repo' : Backend),
            Backend.fetch_one repo number = (.ok p, repo') →
            fetch_pokemon.execute repo req =
              (.ok ⟨p.number.val, p.name.val, p.types.val⟩, repo'))
        ∧ (∀ repo' : Backend,
            Backend.fetch_one repo number = (.error .NotFound, repo') →
            fetch_pokemon.execute repo req = (.error .NotFound, repo'))
        ∧ (∀ repo' : Backend,
            Backend.fetch_one repo number = (.error .Unknown, repo') →
            fetch_pokemon.execute repo req = (.error .Unknown, repo')) := by
  constructor
  · intro hbad
    unfold fetch_pokemon.execute
    simp only [hbad]
  · intro number hn
    refine ⟨?_, ?_, ?_⟩
    · intro p repo' h
      unfold fetch_pokemon.execute
      simp only [hn, h]
    · intro repo' h
      unfold fetch_pokemon.execute
      simp only [hn, h]
    · intro repo' h
      unfold fetch_pokemon.execute
      simp only [hn, h]

theorem fetch_all_execute_spec (repo : Backend) :
    (∀ (ps : List Pokemon) (repo' : Backend),
      Backend.fetch_all repo = (.ok ps, repo') →
      fetch_all_pokemons.execute repo =
        (.ok (ps.map fun p => ⟨p.number.val, p.name.val, p.types.val⟩), repo'))
    ∧ ∀ repo' : Backend, Backend.fetch_all repo = (.error .Unknown, repo') →
        fetch_all_pokemons.execute repo = (.error .Unknown, repo') := by
  constructor
  · intro ps repo' h
    unfold fetch_all_pokemons.execute
    simp only [h]
  · intro repo' h
    unfold fetch_all_pokemons.execute
    simp only [h]

theorem delete_execute_spec (repo : Backend) (req : delete_pokemon.Request) :
    (PokemonNumber.tryFrom req.number = none →
      delete_pokemon.execute repo req = (.error .BadRequest, repo))
    ∧ ∀ number : PokemonNumber, PokemonNumber.tryFrom req.number = some number →
        (∀ repo' : Backend, Backend.delete repo number = (.ok (), repo') →
            delete_pokemon.execute repo req = (.ok (), repo'))
        ∧ (∀ repo' : Backend,
            Backend.delete repo number = (.error .NotFound, repo') →
            delete_pokemon.execute repo req = (.error .NotFound, repo'))
        ∧ (∀ repo' : Backend,
            Backend.delete repo number = (.error .Unknown, repo') →
            delete_pokemon.execute repo req = (.error .Unknown, repo')) := by
  constructor
  · intro hbad
    unfold delete_pokemon.execute
    simp only [hbad]
  · intro number hn
    refine ⟨?_, ?_, ?_⟩
    · intro repo' h
      unfold delete_pokemon.execute
      simp only [hn, h]
    · intro repo' h
      unfold delete_pokemon.execute
      simp only [hn, h]
    · intro repo' h
      unfold delete_pokemon.execute
      simp only [hn, h]



/-- C7: every use-case orchestrator validates the raw request fields first
and answers BadRequest (leaving the backend untouched) on a validation
failure; otherwise it calls the matching repository operation, maps its
errors one-to-one, and on success converts the returned record back to raw
primitives. -/
theorem C7_orchestrators :
    (∀ (repo : Backend) (req : create_pokemon.Request),
      ((PokemonNumber.tryFrom req.number = none ∨
          PokemonName.tryFrom req.name = none ∨
          PokemonTypes.tryFrom req.types = none) →
        create_pokemon.execute repo req = (.error .BadRequest, repo))
      ∧ ∀ (number : PokemonNumber) (name : PokemonName) (types : PokemonTypes),
          PokemonNumber.tryFrom req.number = some number →
          PokemonName.tryFrom req.name = some name →
          PokemonTypes.tryFrom req.types = some types →
          (∀ (p : Pokemon) (repo' : Backend),
              Backend.insert repo number name types = (.ok p, repo') →
              create_pokemon.execute repo req =
                (.ok ⟨p.number.val, p.name.val, p.types.val⟩, repo'))
          ∧ (∀ repo' : Backend,
              Backend.insert repo number name types = (.error .Conflict, repo') →
              create_pokemon.execute repo req = (.error .Conflict, repo'))
          ∧ (∀ repo' : Backend,
              Backend.insert repo number name types = (.error .Unknown, repo') →
              create_pokemon.execute repo req = (.error .Unknown, repo')))
    ∧ (∀ (repo : Backend) (req : fetch_pokemon.Request),
      (PokemonNumber.tryFrom req.number = none →
        fetch_pokemon.execute repo req = (.error .BadRequest, repo))
      ∧ ∀ number : PokemonNumber, PokemonNumber.tryFrom req.number = some number →
          (∀ (p : Pokemon) (repo' : Backend),
              Backend.fetch_one repo number = (.ok p, repo') →
              fetch_pokemon.execute repo req =
                (.ok ⟨p.number.val, p.name.val, p.types.val⟩, repo'))
          ∧ (∀ repo' : Backend,
              Backend.fetch_one repo number = (.error .NotFound, repo') →
              fetch_pokemon.execute repo req = (.error .NotFound, repo'))
          ∧ (∀ repo' : Backend,
              Backend.fetch_one repo number = (.error .Unknown, repo') →
              fetch_pokemon.execute repo req = (.error .Unknown, repo')))
    ∧ (∀ repo : Backend,
      (∀ (ps : List Pokemon) (repo' : Backend),
        Backend.fetch_all repo = (.ok ps, repo') →
        fetch_all_pokemons.execute repo =
          (.ok (ps.map fun p => ⟨p.number.val, p.name.val, p.types.val⟩), repo'))
      ∧ ∀ repo' : Backend, Backend.fetch_all repo = (.error .Unknown, repo') →
          fetch_all_pokemons.execute repo = (.error .Unknown, repo'))
    ∧ (∀ (repo : Backend) (req : delete_pokemon.Request),
      (PokemonNumber.tryFrom req.number = none →
        delete_pokemon.execute repo req = (.error .BadRequest, repo))
      ∧ ∀ number : PokemonNumber, PokemonNumber.tryFrom req.number = some number →
          (∀ repo' : Backend, Backend.delete repo number = (.ok (), repo') →
              delete_pokemon.execute repo req = (.ok (), repo'))
          ∧ (∀ repo' : Backend,
              Backend.delete repo number = (.error .NotFound, repo') →
              delete_pokemon.execute repo req = (.error .NotFound, repo'))
          ∧ (∀ repo' : Backend,
              Backend.delete repo number = (.error .Unknown, repo') →
              delete_pokemon.execute repo req = (.error .Unknown, repo'))) :=
  ⟨create_execute_spec, fetch_execute_spec, fetch_all_execute_spec,
    delete_execute_spec⟩

theorem C7_orchestrators_witness :
    create_pokemon.execute (Backend.inMemory InMemoryRepository.new) ⟨0, "", []⟩ =
        (.error .BadRequest, Backend.inMemory InMemoryRepository.new)
    ∧ create_pokemon.execute (Backend.inMemory InMemoryRepository.new)
          ⟨25, "Pikachu", ["Electric"]⟩ =
        (.ok ⟨25, "Pikachu", ["Electric"]⟩, Backend.inMemory ⟨false, [pikachu]⟩)
    ∧ fetch_all_pokemons.execute (Backend.sqlite SqliteEnv.ok SqliteDb.empty) =
        (.ok [], Backend.sqlite SqliteEnv.ok SqliteDb.empty)
    ∧ delete_pokemon.execute (Backend.airtable AirtableEnv.ok ⟨[]⟩) ⟨25⟩ =
        (.error .NotFound, Backend.airtable AirtableEnv.ok ⟨[]⟩) :=
  ⟨(C7_orchestrators.1 (Backend.inMemory InMemoryRepository.new) ⟨0, "", []⟩).1
      (Or.inl rfl),
    ((C7_orchestrators.1 (Backend.inMemory InMemoryRepository.new)
          ⟨25, "Pikachu", ["Electric"]⟩).2 ⟨25⟩ ⟨"Pikachu"⟩ ⟨["Electric"]⟩ rfl rfl
        rfl).1 pikachu (Backend.inMemory ⟨false, [pikachu]⟩) rfl,
    (C7_orchestrators.2.2.1 (Backend.sqlite SqliteEnv.ok SqliteDb.empty)).1 []
      (Backend.sqlite SqliteEnv.ok SqliteDb.empty) rfl,
    ((C7_orchestrators.2.2.2 (Backend.airtable AirtableEnv.ok ⟨[]⟩) ⟨25⟩).2 ⟨25⟩
        rfl).2.1 (Backend.airtable AirtableEnv.ok ⟨[]⟩) rfl⟩



/-- C8: the remote backend's insert is a check-then-act sequence: it first
issues the filtered read; a failing read is Unknown; a non-empty read
result is Conflict with no create call issued (the state is unchanged and
the outcome ignores the write channel entirely); only an empty read result
leads to the create call, whose failure is Unknown and whose success
appends exactly one row. -/
theorem C8_airtable_insert_check_then_act :
    ∀ (env : AirtableEnv) (st : AirtableState) (number : PokemonNumber)
      (name : PokemonName) (types : PokemonTypes),
      (env.readFails = true →
        AirtableRepository.insert env st number name types = (.error .Unknown, st))
      ∧ (env.readFails = false →
          (∃ record ∈ st.records, record.number = number.val) →
          AirtableRepository.insert env st number name types = (.error .Conflict, st))
      ∧ (env.readFails = false →
          (∀ record ∈ st.records, record.number ≠ number.val) →
          env.writeFails = true →
          AirtableRepository.insert env st number name types = (.error .Unknown, st))
      ∧ (env.readFails = false →
          (∀ record ∈ st.records, record.number ≠ number.val) →
          env.writeFails = false →
          AirtableRepository.insert env st number name types =
            (.ok (Pokemon.new number name types),
              ⟨st.records ++ [⟨env.freshId, number.val, name.val, types.val⟩]⟩)) := by
  intro env st number name types
  refine ⟨?_, ?_, ?_, ?_⟩
  · intro hread
    unfold AirtableRepository.insert AirtableRepository.fetch_pokemon_rows
    simp [hread]
  · intro hread hex
    unfold AirtableRepository.insert AirtableRepository.fetch_pokemon_rows
    rw [hread]
    simp only [Bool.false_eq_true, if_false]
    have hne : st.records.filter (fun record => record.number == number.val) ≠ [] := by
      obtain ⟨record, hmem, hval⟩ := hex
      intro hnil
      rw [List.filter_eq_nil_iff] at hnil
      exact hnil record hmem (by simpa using hval)
    cases hf : st.records.filter (fun record => record.number == number.val) with
    | nil => exact absurd hf hne
    | cons r rest =>
      rfl
  · intro hread habs hwrite
    unfold AirtableRepository.insert AirtableRepository.fetch_pokemon_rows
    rw [hread]
    simp only [Bool.false_eq_true, if_false]
    rw [List.filter_eq_nil_iff.2 (fun record hr => by simpa using habs record hr)]
    simp [hwrite]
  · intro hread habs hwrite
    unfold AirtableRepository.insert AirtableRepository.fetch_pokemon_rows
    rw [hread]
    simp only [Bool.false_eq_true, if_false]
    rw [List.filter_eq_nil_iff.2 (fun record hr => by simpa using habs record hr)]
    simp [hwrite]

theorem C8_airtable_insert_check_then_act_witness :
    AirtableRepository.insert ⟨true, false, "rec0"⟩ ⟨[]⟩ ⟨25⟩ ⟨"Pikachu"⟩
        ⟨["Electric"]⟩ = (.error .Unknown, (⟨[]⟩ : AirtableState))
    ∧ AirtableRepository.insert AirtableEnv.ok ⟨[⟨"rec0", 25, "Pikachu", ["Electric"]⟩]⟩
        ⟨25⟩ ⟨"Charmander"⟩ ⟨["Fire"]⟩ =
      (.error .Conflict, (⟨[⟨"rec0", 25, "Pikachu", ["Electric"]⟩]⟩ : AirtableState))
    ∧ AirtableRepository.insert ⟨false, true, "rec0"⟩ ⟨[]⟩ ⟨25⟩ ⟨"Pikachu"⟩
        ⟨["Electric"]⟩ = (.error .Unknown, (⟨[]⟩ : AirtableState))
    ∧ AirtableRepository.insert AirtableEnv.ok ⟨[]⟩ ⟨25⟩ ⟨"Pikachu"⟩ ⟨["Electric"]⟩ =
      (.ok (Pokemon.new ⟨25⟩ ⟨"Pikachu"⟩ ⟨["Electric"]⟩),
        (⟨[⟨"rec0", 25, "Pikachu", ["Electric"]⟩]⟩ : AirtableState)) :=
  ⟨(C8_airtable_insert_check_then_act ⟨true, false, "rec0"⟩ ⟨[]⟩ ⟨25⟩ ⟨"Pikachu"⟩
        ⟨["Electric"]⟩).1 rfl,
    (C8_airtable_insert_check_then_act AirtableEnv.ok
        ⟨[⟨"rec0", 25, "Pikachu", ["Electric"]⟩]⟩ ⟨25⟩ ⟨"Charmander"⟩ ⟨["Fire"]⟩).2.1
      rfl ⟨⟨"rec0", 25, "Pikachu", ["Electric"]⟩, List.mem_singleton.2 rfl, rfl⟩,
    (C8_airtable_insert_check_then_act ⟨false, true, "rec0"⟩ ⟨[]⟩ ⟨25⟩ ⟨"Pikachu"⟩
        ⟨["Electric"]⟩).2.2.1 rfl (fun record hr => absurd hr (List.not_mem_nil record))
      rfl,
    (C8_airtable_insert_check_then_act AirtableEnv.ok ⟨[]⟩ ⟨25⟩ ⟨"Pikachu"⟩
        ⟨["Electric"]⟩).2.2.2 rfl (fun record hr => absurd hr (List.not_mem_nil record))
      rfl⟩



theorem applyOp_numbersNodup {r : InMemoryRepository} (h : numbersNodup r) :
    ∀ op : Op, numbersNodup (applyOp r op) := by
  intro op
  cases op with
  | insertOp number name types =>
    show numbersNodup (r.insert number name types).2
    unfold InMemoryRepository.insert
    split
    · exact h
    · split
      case isTrue hd => exact h
      case isFalse hd =>
        unfold numbersNodup at h ⊢
        simp only [List.map_append, List.map_cons, List.map_nil]
        rw [List.nodup_append]
        refine ⟨h, List.nodup_singleton _, ?_⟩
        intro a ha hb
        rw [List.mem_singleton] at hb
        subst hb
        obtain ⟨p, hp, hpn⟩ := List.mem_map.1 ha
        simp only [List.any_eq_true, beq_iff_eq, not_exists] at hd
        exact hd p ⟨hp, hpn⟩
  | fetchOneOp number =>
    show numbersNodup (r.fetch_one number).2
    unfold InMemoryRepository.fetch_one
    split
    · exact h
    · split <;> exact h
  | fetchAllOp =>
    show numbersNodup r.fetch_all.2
    unfold InMemoryRepository.fetch_all
    split <;> exact h
  | deleteOp number =>
    show numbersNodup (r.delete number).2
    unfold InMemoryRepository.delete
    split
    · exact h
    · split
      case h_1 i hi =>
        unfold numbersNodup at h ⊢
        exact List.Nodup.sublist ((List.eraseIdx_sublist _ _).map _) h
      case h_2 => exact h

theorem runOps_numbersNodup {r : InMemoryRepository} (h : numbersNodup r) :
    ∀ ops : List Op, numbersNodup (runOps r ops) := by
  intro ops
  induction ops generalizing r with
  | nil => exact h
  | cons op ops ih => exact ih (applyOp_numbersNodup h op)

/-- C9: starting from the empty in-memory repository, every sequential
trace of insert / fetch-one / fetch-all / delete calls preserves the
invariant that no two stored records share a number. -/
theorem C9_unique_numbers (ops : List Op) :
    numbersNodup (runOps InMemoryRepository.new ops) :=
  runOps_numbersNodup (by simp [numbersNodup, InMemoryRepository.new]) ops

/-- C10: on the in-memory backend, the fetch operations return the state
unchanged, and every operation that answers an error — including the
error-injection mode, which rejects before touching the list — leaves the
stored list exactly as it was. -/
theorem C10_inMemory_frame :
    ∀ (r : InMemoryRepository) (number : PokemonNumber) (name : PokemonName)
      (types : PokemonTypes),
      r.fetch_all.2 = r
      ∧ (r.fetch_one number).2 = r
      ∧ (∀ (e : InsertError) (r' : InMemoryRepository),
          r.insert number name types = (.error e, r') → r' = r)
      ∧ (∀ (e : DeleteError) (r' : InMemoryRepository),
          r.delete number = (.error e, r') → r' = r) := by
  intro r number name types
  refine ⟨?_, ?_, ?_, ?_⟩
  · unfold InMemoryRepository.fetch_all
    split <;> rfl
  · unfold InMemoryRepository.fetch_one
    split
    · rfl
    · split <;> rfl
  · intro e r' h
    unfold InMemoryRepository.insert at h
    split at h
    · exact (congrArg Prod.snd h).symm
    · split at h
      · exact (congrArg Prod.snd h).symm
      · simp at h
  · intro e r' h
    unfold InMemoryRepository.delete at h
    split at h
    · exact (congrArg Prod.snd h).symm
    · split at h
      · simp at h
      · exact (congrArg Prod.snd h).symm

theorem C10_inMemory_frame_witness :
    InMemoryRepository.new.with_error.fetch_all.2 =
        InMemoryRepository.new.with_error
    ∧ InMemoryRepository.new.with_error = InMemoryRepository.new.with_error :=
  ⟨(C10_inMemory_frame InMemoryRepository.new.with_error ⟨25⟩ ⟨"Pikachu"⟩
      ⟨["Electric"]⟩).1,
    (C10_inMemory_frame InMemoryRepository.new.with_error ⟨25⟩ ⟨"Pikachu"⟩
      ⟨["Electric"]⟩).2.2.1 .Unknown InMemoryRepository.new.with_error rfl⟩



theorem mem_insertPokemonRow {a : Nat × String} {n : Nat} {name : String} :
    ∀ {rows : List (Nat × String)},
      a ∈ insertPokemonRow n name rows ↔ a = (n, name) ∨ a ∈ rows := by
  intro rows
  induction rows with
  | nil => simp [insertPokemonRow]
  | cons row rest ih =>
    unfold insertPokemonRow
    split
    · simp [List.mem_cons]
    · simp only [List.mem_cons, ih]
      tauto

theorem insertPokemonRow_pairwise {n : Nat} {name : String} :
    ∀ {rows : List (Nat × String)},
      rows.Pairwise (fun a b => a.1 < b.1) →
      (∀ row ∈ rows, row.1 ≠ n) →
      (insertPokemonRow n name rows).Pairwise (fun a b => a.1 < b.1) := by
  intro rows
  induction rows with
  | nil =>
    intro _ _
    simp [insertPokemonRow]
  | cons row rest ih =>
    intro hp hne
    unfold insertPokemonRow
    split
    case isTrue hle =>
      refine List.Pairwise.cons ?_ hp
      intro b hb
      have hlt : n < row.1 :=
        Nat.lt_of_le_of_ne hle
          (fun e => hne row (List.mem_cons_self _ _) e.symm)
      rcases List.mem_cons.1 hb with hb | hb
      · subst hb
        exact hlt
      · exact Nat.lt_trans hlt ((List.pairwise_cons.1 hp).1 b hb)
    case isFalse hgt =>
      have hlt : row.1 < n := Nat.lt_of_not_le hgt
      refine List.pairwise_cons.2
        ⟨?_, ih (List.pairwise_cons.1 hp).2
          (fun s hs => hne s (List.mem_cons_of_mem _ hs))⟩
      intro b hb
      rcases mem_insertPokemonRow.1 hb with hb | hb
      · subst hb
        exact hlt
      · exact (List.pairwise_cons.1 hp).1 b hb

theorem sqlite_insert_ok_spec {env : SqliteEnv} {db : SqliteDb}
    {number : PokemonNumber} {nm : PokemonName} {ts : PokemonTypes}
    {p : Pokemon} {db' : SqliteDb}
    (h : SqliteRepository.insert env db number nm ts = (.ok p, db')) :
    db'.pokemons = insertPokemonRow number.val nm.val db.pokemons ∧
      ∀ row ∈ db.pokemons, row.1 ≠ number.val := by
  unfold SqliteRepository.insert at h
  split at h
  · simp at h
  · split at h
    · simp at h
    · split at h
      case h_1 => split at h <;> simp at h
      case h_2 => simp at h
      case h_3 db1 heq =>
        unfold execInsertPokemonRow at heq
        cases hrse : env.recordStmtError with
        | some m0 =>
          rw [hrse] at heq
          cases heq
        | none =>
          rw [hrse] at heq
          cases hdup : db.pokemons.any (fun row => row.1 == number.val) with
          | true =>
            rw [hdup] at heq
            simp at heq
          | false =>
            rw [hdup] at heq
            simp only [Bool.false_eq_true, if_false, Except.ok.injEq] at heq
            subst heq
            split at h
            · simp at h
            case h_2 db2 heq2 =>
              split at h
              case isTrue hc =>
                simp only [Prod.mk.injEq, Except.ok.injEq] at h
                obtain ⟨-, hdb'⟩ := h
                subst hdb'
                constructor
                · rw [execInsertTypeRows_pokemons _ _ _ _ heq2]
                · simp only [List.any_eq_false, beq_iff_eq] at hdup
                  exact hdup
              case isFalse hc => simp at h

theorem sqlite_insert_WF {env : SqliteEnv} {db : SqliteDb}
    {number : PokemonNumber} {nm : PokemonName} {ts : PokemonTypes}
    (hwf : db.WF) : ((SqliteRepository.insert env db number nm ts).2).WF := by
  rcases hres : SqliteRepository.insert env db number nm ts with ⟨res, db'⟩
  cases res with
  | error e =>
    rw [show db' = db from sqlite_insert_error_frame hres]
    exact hwf
  | ok p =>
    obtain ⟨hpok, hfresh⟩ := sqlite_insert_ok_spec hres
    show db'.WF
    unfold SqliteDb.WF
    rw [hpok]
    exact insertPokemonRow_pairwise hwf hfresh

theorem sqlite_delete_WF {db : SqliteDb} {number : PokemonNumber}
    (hwf : db.WF) : ((SqliteRepository.delete db number).2).WF := by
  simp only [SqliteRepository.delete]
  split
  · exact hwf
  · exact List.Pairwise.sublist (List.filter_sublist _) hwf

theorem sqlite_empty_WF : SqliteDb.empty.WF :=
  List.Pairwise.nil

end Pokedex
